import Mathlib

/-!
Verification of the remote MCP test server (src/index.ts).

The file shallowly embeds the relevant TypeScript code:
* a JSON value type together with a model of `JSON.stringify(v, null, 2)`;
* models of `encodeURIComponent` and `URLSearchParams` serialization;
* `makeApiCall`, with the `fetch` call replaced by a response oracle, and
  with the list of issued requests returned alongside the result so that
  "no network call was attempted" is expressible;
* the tool handlers (`get_product_by_sku` and the other remote tools all
  share one shape, `add`, `calculate`).

JavaScript numbers are modelled as rationals; `String(n)` is modelled by
`jsNumToString`, which agrees with JavaScript on integral values (the only
values the verified claims exercise).
-/

mutual

/-- JSON values, with arrays and objects as mutually inductive lists so that
all functions below are structurally recursive and kernel-evaluable. -/
inductive Json where
  | null : Json
  | bool : Bool → Json
  | num : Rat → Json
  | str : String → Json
  | arr : JsonArray → Json
  | obj : JsonObject → Json

/-- A JSON array: a list of JSON values. -/
inductive JsonArray where
  | nil : JsonArray
  | cons : Json → JsonArray → JsonArray

/-- A JSON object: an ordered list of key/value members. -/
inductive JsonObject where
  | nil : JsonObject
  | cons : String → Json → JsonObject → JsonObject

end

/-- JavaScript truthiness of a JSON value (`null`, `false`, `0`, `""` are falsy). -/
def Json.truthy : Json → Bool
  | Json.null => false
  | Json.bool b => b
  | Json.num q => !(q = 0)
  | Json.str s => !(s = "")
  | Json.arr _ => true
  | Json.obj _ => true

/-- Truthiness of a possibly-absent (`undefined`) JSON value. -/
def jsTruthy : Option Json → Bool
  | none => false
  | some v => v.truthy

/-- Model of JavaScript `String(n)` restricted to the rational model of
numbers: integral values print as decimal integers, exactly as in
JavaScript; non-integral values fall back to Lean's rational rendering. -/
def jsNumToString (q : Rat) : String :=
  if q.den = 1 then toString q.num else toString q

/-- Uppercase hexadecimal digit for a value below 16. -/
def hexDigitUpper (n : Nat) : Char :=
  if n < 10 then Char.ofNat (48 + n) else Char.ofNat (65 + (n - 10))

/-- Lowercase hexadecimal digit for a value below 16. -/
def hexDigitLower (n : Nat) : Char :=
  if n < 10 then Char.ofNat (48 + n) else Char.ofNat (97 + (n - 10))

/-- UTF-8 encoding of a single character, as a list of byte values. -/
def utf8Bytes (c : Char) : List Nat :=
  let n := c.toNat
  if n < 0x80 then [n]
  else if n < 0x800 then [0xC0 + n / 0x40, 0x80 + n % 0x40]
  else if n < 0x10000 then
    [0xE0 + n / 0x1000, 0x80 + (n / 0x40) % 0x40, 0x80 + n % 0x40]
  else
    [0xF0 + n / 0x40000, 0x80 + (n / 0x1000) % 0x40,
     0x80 + (n / 0x40) % 0x40, 0x80 + n % 0x40]

/-- Percent-encoding of one byte value, with uppercase hex digits as
produced by `encodeURIComponent` and `URLSearchParams`. -/
def percentByte (n : Nat) : String :=
  "%" ++ String.singleton (hexDigitUpper (n / 16)) ++ String.singleton (hexDigitUpper (n % 16))

/-- ASCII alphanumeric test. -/
def isAsciiAlphaNum (c : Char) : Bool :=
  (65 ≤ c.toNat && c.toNat ≤ 90) || (97 ≤ c.toNat && c.toNat ≤ 122) ||
  (48 ≤ c.toNat && c.toNat ≤ 57)

/-- Characters left unescaped by `encodeURIComponent`:
alphanumerics and `- _ . ! ~ * ' ( )`. -/
def uriUnescaped (c : Char) : Bool :=
  isAsciiAlphaNum c || c = '-' || c = '_' || c = '.' || c = '!' ||
  c = '~' || c = '*' || c = Char.ofNat 39 || c = '(' || c = ')'

/-- Model of JavaScript `encodeURIComponent`. -/
def encodeURIComponent (s : String) : String :=
  String.join (s.data.map fun c =>
    if uriUnescaped c then String.singleton c
    else String.join ((utf8Bytes c).map percentByte))

/-- Characters left unescaped by the `application/x-www-form-urlencoded`
serializer used by `URLSearchParams`: alphanumerics and `* - . _`. -/
def formUnescaped (c : Char) : Bool :=
  isAsciiAlphaNum c || c = '*' || c = '-' || c = '.' || c = '_'

/-- Form-url-encoding of one string: space becomes `+`, unescaped characters
pass through, everything else is percent-encoded byte by byte. -/
def formEncode (s : String) : String :=
  String.join (s.data.map fun c =>
    if c = ' ' then "+"
    else if formUnescaped c then String.singleton c
    else String.join ((utf8Bytes c).map percentByte))

/-- Serialization of a `URLSearchParams` value (an ordered key/value list),
as produced by string interpolation of the params object. -/
def urlSearchParamsToString (ps : List (String × String)) : String :=
  String.intercalate "&" (ps.map fun p => formEncode p.1 ++ "=" ++ formEncode p.2)

/-- JSON string quoting as performed by `JSON.stringify`: wraps in double
quotes, escapes `"` and backslash and the control characters. -/
def quoteJsonChar (c : Char) : String :=
  if c = '"' then "\\\""
  else if c = '\\' then "\\\\"
  else if c = Char.ofNat 8 then "\\b"
  else if c = Char.ofNat 9 then "\\t"
  else if c = Char.ofNat 10 then "\\n"
  else if c = Char.ofNat 12 then "\\f"
  else if c = Char.ofNat 13 then "\\r"
  else if c.toNat < 32 then
    "\\u00" ++ String.singleton (hexDigitLower (c.toNat / 16)) ++
      String.singleton (hexDigitLower (c.toNat % 16))
  else String.singleton c

/-- Quoted form of a JSON string value. -/
def quoteJsonString (s : String) : String :=
  "\"" ++ String.join (s.data.map quoteJsonChar) ++ "\""

/-- A run of `n` spaces. -/
def spaces (n : Nat) : String :=
  String.join (List.replicate n " ")

mutual

/-- Model of `JSON.stringify(v, null, 2)` at nesting depth `ind` (the number
of spaces of the enclosing indentation); the top-level call uses `ind = 0`. -/
def renderJson (ind : Nat) : Json → String
  | Json.null => "null"
  | Json.bool b => cond b "true" "false"
  | Json.num q => jsNumToString q
  | Json.str s => quoteJsonString s
  | Json.arr JsonArray.nil => "[]"
  | Json.arr (JsonArray.cons x xs) =>
      "[\n" ++ spaces (ind + 2) ++ renderJson (ind + 2) x ++
        renderArrRest (ind + 2) xs ++ "\n" ++ spaces ind ++ "]"
  | Json.obj JsonObject.nil => "\x7b\x7d"
  | Json.obj (JsonObject.cons k v ms) =>
      "\x7b\n" ++ spaces (ind + 2) ++ quoteJsonString k ++ ": " ++
        renderJson (ind + 2) v ++ renderObjRest (ind + 2) ms ++
        "\n" ++ spaces ind ++ "\x7d"

/-- Remaining array elements, each preceded by a comma, newline and indent. -/
def renderArrRest (ind : Nat) : JsonArray → String
  | JsonArray.nil => ""
  | JsonArray.cons x xs =>
      ",\n" ++ spaces ind ++ renderJson ind x ++ renderArrRest ind xs

/-- Remaining object members, each preceded by a comma, newline and indent. -/
def renderObjRest (ind : Nat) : JsonObject → String
  | JsonObject.nil => ""
  | JsonObject.cons k v ms =>
      ",\n" ++ spaces ind ++ quoteJsonString k ++ ": " ++
        renderJson ind v ++ renderObjRest ind ms

end

mutual

/-- Compact rendering of a JSON value, modelling plain `JSON.stringify(v)`
(no indentation), used for request bodies. -/
def renderJsonCompact : Json → String
  | Json.null => "null"
  | Json.bool b => cond b "true" "false"
  | Json.num q => jsNumToString q
  | Json.str s => quoteJsonString s
  | Json.arr JsonArray.nil => "[]"
  | Json.arr (JsonArray.cons x xs) =>
      "[" ++ renderJsonCompact x ++ renderArrRestCompact xs ++ "]"
  | Json.obj JsonObject.nil => "\x7b\x7d"
  | Json.obj (JsonObject.cons k v ms) =>
      "\x7b" ++ quoteJsonString k ++ ":" ++ renderJsonCompact v ++
        renderObjRestCompact ms ++ "\x7d"

/-- Remaining compact array elements, comma-separated. -/
def renderArrRestCompact : JsonArray → String
  | JsonArray.nil => ""
  | JsonArray.cons x xs => "," ++ renderJsonCompact x ++ renderArrRestCompact xs

/-- Remaining compact object members, comma-separated. -/
def renderObjRestCompact : JsonObject → String
  | JsonObject.nil => ""
  | JsonObject.cons k v ms =>
      "," ++ quoteJsonString k ++ ":" ++ renderJsonCompact v ++
        renderObjRestCompact ms

end

/-- A JavaScript object with string values, modelled as an ordered
key/value list with distinct keys preserved in insertion order. -/
abbrev JsObj : Type := List (String × String)

/-- Property read `o[k]`: the value at the first binding of key `k`. -/
def jsGet (o : JsObj) (k : String) : Option String :=
  (o.find? fun p => p.1 = k).map Prod.snd

/-- Property read collapsed through JavaScript truthiness: an absent key and
an empty-string value are indistinguishable to the `!x` tests in the code,
so both are modelled as the empty string. -/
def jsGetStr (o : JsObj) (k : String) : String :=
  (jsGet o k).getD ""

/-- One step of object-literal/spread assignment: an existing binding of the
same key is overwritten in place, otherwise the binding is appended. -/
def objInsert (o : JsObj) (k v : String) : JsObj :=
  if o.any fun p => p.1 = k then
    o.map fun p => if p.1 = k then (k, v) else p
  else o ++ [(k, v)]

/-- Object spread `\x7b ...base, ...extra \x7d`: the entries of `extra` are
assigned into `base` in order, later exact keys overriding earlier ones. -/
def objSpread (base : JsObj) (extra : JsObj) : JsObj :=
  extra.foldl (fun acc p => objInsert acc p.1 p.2) base

/-- The observable pieces of a `fetch` response consulted by `makeApiCall`:
`status` and `statusText`, the body read as text by `response.text()`, and
the result of `response.json()` (an error value models a rejected parse,
carrying the exception message). -/
structure FetchResponse where
  status : Nat
  statusText : String
  bodyText : String
  jsonBody : Except String Json

/-- The `Response.ok` flag: status in the range 200–299. -/
def FetchResponse.isOk (r : FetchResponse) : Bool :=
  200 ≤ r.status && r.status ≤ 299

/-- An outbound HTTP request as assembled by `makeApiCall` and handed to
`fetch`. -/
structure ApiRequest where
  url : String
  method : String
  headers : JsObj
  body : Option String

/-- The body of the `try` block of `makeApiCall`: header extraction and
validation, token normalization, URL and header assembly, the `fetch` call
(replaced by the `response` oracle) and response handling.  Returns the
thrown-or-returned result together with the list of requests handed to
`fetch`, so that the absence of network traffic is observable. -/
def makeApiCallTry (endpoint : String) (method : String) (data : Option Json)
    (headers : JsObj) (response : FetchResponse) :
    Except String Json × List ApiRequest :=
  let magentoUrl := jsGetStr headers "x-magento-domain"
  let bearerToken := jsGetStr headers "authorization"
  if magentoUrl = "" || bearerToken = "" then
    (Except.error "Missing required headers: x-magento-domain and authorization", [])
  else
    let token := if bearerToken.startsWith "Bearer " then bearerToken
      else "Bearer " ++ bearerToken
    let apiUrl := magentoUrl ++ "/rest/V1/" ++ endpoint
    let reqHeaders := objSpread
      [("Authorization", token), ("Content-Type", "application/json"),
       ("Accept", "application/json")] headers
    let body := if jsTruthy data && method ≠ "GET" then
        (data.map fun v => renderJsonCompact v) else none
    let req : ApiRequest :=
      { url := apiUrl, method := method, headers := reqHeaders, body := body }
    if !response.isOk then
      let errorText := response.bodyText
      (Except.error ("API call failed: " ++ toString response.status ++ " " ++
        response.statusText ++ " - " ++ errorText), [req])
    else
      match response.jsonBody with
      | Except.ok v => (Except.ok v, [req])
      | Except.error m => (Except.error m, [req])

/-- `makeApiCall`: the `try` body with its `catch`, which rewraps any thrown
error as `API call error: ` followed by the original message. -/
def makeApiCall (endpoint : String) (method : String) (data : Option Json)
    (headers : JsObj) (response : FetchResponse) :
    Except String Json × List ApiRequest :=
  let r := makeApiCallTry endpoint method data headers response
  (match r.1 with
   | Except.ok v => Except.ok v
   | Except.error m => Except.error ("API call error: " ++ m), r.2)

/-- One content block of a tool response; in this server the kind tag is
always the string `"text"`. -/
structure ContentBlock where
  type : String
  text : String
deriving DecidableEq

/-- A tool response: an ordered list of content blocks. -/
structure ToolResponse where
  content : List ContentBlock
deriving DecidableEq

/-- Shared body of every remote-backed tool handler: call `makeApiCall` with
the given endpoint, method `GET` and body `null`; on success return the
result pretty-printed with two-space indentation as a single text block, on
a caught error return `Error: ` and the message as a single text block.
The issued-request list is passed through. -/
def remoteToolResult (endpoint : String) (headers : JsObj)
    (response : FetchResponse) : ToolResponse × List ApiRequest :=
  let r := makeApiCall endpoint "GET" (some Json.null) headers response
  (match r.1 with
   | Except.ok result =>
       { content := [{ type := "text", text := renderJson 0 result }] }
   | Except.error m =>
       { content := [{ type := "text", text := "Error: " ++ m }] }, r.2)

/-- The `get_product_by_sku` handler. -/
def getProductBySku (sku : String) (headers : JsObj)
    (response : FetchResponse) : ToolResponse × List ApiRequest :=
  remoteToolResult ("mcpdata/product/sku/" ++ encodeURIComponent sku)
    headers response

/-- The `get_products_by_ids` handler. -/
def getProductsByIds (ids : String) (headers : JsObj)
    (response : FetchResponse) : ToolResponse × List ApiRequest :=
  remoteToolResult ("mcpdata/products/ids/" ++ encodeURIComponent ids)
    headers response

/-- The `get_product_categories` handler. -/
def getProductCategories (sku : String) (headers : JsObj)
    (response : FetchResponse) : ToolResponse × List ApiRequest :=
  remoteToolResult ("mcpdata/product/categories/" ++ encodeURIComponent sku)
    headers response

/-- The `URLSearchParams` value built by the `search_products` handler. -/
def searchProductsParams (query : String) (pageSize currentPage : Rat) :
    List (String × String) :=
  [("query", query), ("pageSize", jsNumToString pageSize),
   ("currentPage", jsNumToString currentPage)]

/-- The `search_products` handler; `query` defaults to the empty string,
`page_size` to 10 and `current_page` to 1 before this function runs. -/
def searchProducts (query : String) (pageSize currentPage : Rat)
    (headers : JsObj) (response : FetchResponse) :
    ToolResponse × List ApiRequest :=
  remoteToolResult ("mcpdata/products/search?" ++
    urlSearchParamsToString (searchProductsParams query pageSize currentPage))
    headers response

/-- The `URLSearchParams` value built by the `get_bestsellers` handler:
`dateRange` and `limit` always, then `status` appended only when the
`status` argument is truthy. -/
def bestsellersParams (dateRange : String) (limit : Rat)
    (status : Option String) : List (String × String) :=
  let params := [("dateRange", dateRange), ("limit", jsNumToString limit)]
  match status with
  | some s => if s ≠ "" then params ++ [("status", s)] else params
  | none => params

/-- The `get_bestsellers` handler; `date_range` defaults to "today" and
`limit` to 10 before this function runs, `status` stays optional. -/
def getBestsellers (dateRange : String) (limit : Rat) (status : Option String)
    (headers : JsObj) (response : FetchResponse) :
    ToolResponse × List ApiRequest :=
  remoteToolResult ("mcpdata/bestsellers?" ++
    urlSearchParamsToString (bestsellersParams dateRange limit status))
    headers response

/-- The `URLSearchParams` value built by the `get_revenue` handler:
`dateRange` and `includeTax` always, then `status` appended only when the
`status` argument is truthy. -/
def revenueParams (dateRange : String) (includeTax : Bool)
    (status : Option String) : List (String × String) :=
  let params := [("dateRange", dateRange),
    ("includeTax", cond includeTax "true" "false")]
  match status with
  | some s => if s ≠ "" then params ++ [("status", s)] else params
  | none => params

/-- The `get_revenue` handler; `date_range` defaults to "today" and
`include_tax` to true before this function runs, `status` stays optional. -/
def getRevenue (dateRange : String) (status : Option String)
    (includeTax : Bool) (headers : JsObj) (response : FetchResponse) :
    ToolResponse × List ApiRequest :=
  remoteToolResult ("mcpdata/revenue?" ++
    urlSearchParamsToString (revenueParams dateRange includeTax status))
    headers response

/-- The `add` tool handler: a single text block holding the stringified sum. -/
def addTool (a b : Rat) : ToolResponse :=
  { content := [{ type := "text", text := jsNumToString (a + b) }] }

/-- The operation argument of the `calculate` tool
(`z.enum(["add", "subtract", "multiply", "divide"])`). -/
inductive CalcOp where
  | add : CalcOp
  | subtract : CalcOp
  | multiply : CalcOp
  | divide : CalcOp
deriving DecidableEq

/-- The `calculate` tool handler: switch on the operation; division by zero
returns an error text block before dividing, every other path returns the
stringified numeric result. -/
def calculateTool (operation : CalcOp) (a b : Rat) : ToolResponse :=
  match operation with
  | CalcOp.add => { content := [{ type := "text", text := jsNumToString (a + b) }] }
  | CalcOp.subtract => { content := [{ type := "text", text := jsNumToString (a - b) }] }
  | CalcOp.multiply => { content := [{ type := "text", text := jsNumToString (a * b) }] }
  | CalcOp.divide =>
      if b = 0 then
        { content := [{ type := "text", text := "Error: Cannot divide by zero" }] }
      else
        { content := [{ type := "text", text := jsNumToString (a / b) }] }

/-- Any call of `makeApiCall` whose incoming headers lack (or hold an empty)
domain or authorization entry throws before reaching `fetch`: the result is
the rewrapped missing-headers error and the issued-request list is empty. -/
theorem makeApiCall_missing_headers (endpoint method : String)
    (data : Option Json) (headers : JsObj) (response : FetchResponse)
    (h : jsGetStr headers "x-magento-domain" = "" ∨
         jsGetStr headers "authorization" = "") :
    makeApiCall endpoint method data headers response =
      (Except.error
        "API call error: Missing required headers: x-magento-domain and authorization",
       []) := by
  rcases h with h | h <;>
    simp [makeApiCall, makeApiCallTry, h]

/-- C1: a remote-backed tool invocation whose per-call headers lack the
`x-magento-domain` or `authorization` entry yields an error content block
whose text contains "Missing required headers", and no request is handed to
`fetch`. -/
theorem remote_missing_headers_error_no_fetch (endpoint : String)
    (headers : JsObj) (response : FetchResponse)
    (h : jsGetStr headers "x-magento-domain" = "" ∨
         jsGetStr headers "authorization" = "") :
    (remoteToolResult endpoint headers response).2 = [] ∧
    (remoteToolResult endpoint headers response).1.content =
      [{ type := "text",
         text := "Error: API call error: Missing required headers: x-magento-domain and authorization" }] ∧
    ∃ pre post : String,
      "Error: API call error: Missing required headers: x-magento-domain and authorization" =
        pre ++ "Missing required headers" ++ post := by
  have hm := makeApiCall_missing_headers endpoint "GET" (some Json.null)
    headers response h
  refine ⟨?_, ?_, "Error: API call error: ",
    ": x-magento-domain and authorization", rfl⟩
  · simp [remoteToolResult, hm]
  · simp [remoteToolResult, hm]

/-- C1 witness: with the domain header absent, `get_product_by_sku`'s shared
remote result is the missing-headers error block and zero fetches. -/
theorem remote_missing_headers_error_no_fetch_concrete :
    (remoteToolResult "mcpdata/product/sku/x" [("authorization", "tok")]
        ⟨200, "OK", "", Except.ok Json.null⟩).2 = [] ∧
    (remoteToolResult "mcpdata/product/sku/x" [("authorization", "tok")]
        ⟨200, "OK", "", Except.ok Json.null⟩).1.content =
      [{ type := "text",
         text := "Error: API call error: Missing required headers: x-magento-domain and authorization" }] ∧
    ∃ pre post : String,
      "Error: API call error: Missing required headers: x-magento-domain and authorization" =
        pre ++ "Missing required headers" ++ post :=
  remote_missing_headers_error_no_fetch "mcpdata/product/sku/x"
    [("authorization", "tok")] ⟨200, "OK", "", Except.ok Json.null⟩
    (Or.inl rfl)

/-- C6: `calculate` with operation `divide` and `b = 0` returns the single
text block "Error: Cannot divide by zero" for every `a`, and (being a total
function) raises nothing. -/
theorem calculate_divide_by_zero (a : Rat) :
    calculateTool CalcOp.divide a 0 =
      { content := [{ type := "text", text := "Error: Cannot divide by zero" }] } := by
  simp [calculateTool]

/-- C6 witness: concrete instance at `a = 7`. -/
theorem calculate_divide_by_zero_concrete :
    calculateTool CalcOp.divide 7 0 =
      { content := [{ type := "text", text := "Error: Cannot divide by zero" }] } :=
  calculate_divide_by_zero 7

/-- C7: `get_bestsellers` with only `date_range = "last week"` (defaults
`limit = 10`, no status) serializes to `dateRange=last+week&limit=10`, which
contains `dateRange=last+week` and `limit=10` and omits `status`; in
general the params hold exactly `dateRange` and `limit` when status is
absent, with `status` appended exactly when a nonempty status is given. -/
theorem bestsellers_query_shape :
    urlSearchParamsToString (bestsellersParams "last week" 10 none) =
      "dateRange=last+week&limit=10" ∧
    (∀ (dr : String) (l : Rat), bestsellersParams dr l none =
      [("dateRange", dr), ("limit", jsNumToString l)]) ∧
    (∀ (dr : String) (l : Rat) (s : String), s ≠ "" →
      bestsellersParams dr l (some s) =
        [("dateRange", dr), ("limit", jsNumToString l), ("status", s)]) := by
  refine ⟨by decide, fun dr l => rfl, fun dr l s hs => ?_⟩
  simp [bestsellersParams, hs]

/-- C7 witness: a provided nonempty status is appended. -/
theorem bestsellers_query_shape_concrete :
    bestsellersParams "today" 10 (some "complete") =
      [("dateRange", "today"), ("limit", jsNumToString 10), ("status", "complete")] :=
  bestsellers_query_shape.2.2 "today" 10 "complete" (by decide)

/-- C8: `search_products` with no arguments (defaults: empty query,
page size 10, page 1) serializes to `query=&pageSize=10&currentPage=1`, and
the three parameters are present for every argument combination. -/
theorem search_products_query_shape :
    urlSearchParamsToString (searchProductsParams "" 10 1) =
      "query=&pageSize=10&currentPage=1" ∧
    ∀ (q : String) (ps cp : Rat), searchProductsParams q ps cp =
      [("query", q), ("pageSize", jsNumToString ps),
       ("currentPage", jsNumToString cp)] :=
  ⟨by decide, fun q ps cp => rfl⟩

/-- C9: the `add` tool returns a single text block holding the stringified
sum; in particular 2 + 3 renders as "5". -/
theorem add_tool_sum :
    (∀ a b : Rat, addTool a b =
      { content := [{ type := "text", text := jsNumToString (a + b) }] }) ∧
    addTool 2 3 = { content := [{ type := "text", text := "5" }] } := by
  refine ⟨fun a b => rfl, ?_⟩
  have h : (2 : Rat) + 3 = 5 := by norm_num
  simp only [addTool, h]
  decide

/-- C10: in both `get_bestsellers` and `get_revenue` an empty-string status
argument is treated like an absent one: the truthiness test skips the
append, so the params hold no `status` entry. -/
theorem empty_status_omitted :
    (∀ (dr : String) (l : Rat), bestsellersParams dr l (some "") =
      [("dateRange", dr), ("limit", jsNumToString l)]) ∧
    (∀ (dr : String) (it : Bool), revenueParams dr it (some "") =
      [("dateRange", dr), ("includeTax", cond it "true" "false")]) := by
  constructor
  · intro dr l
    simp [bestsellersParams]
  · intro dr it
    simp [revenueParams]

/-- C2: every handler returns at least one content block, always a single
block of kind "text"; for the remote-backed shape the text is either the
pretty-printed success value or `Error: ` followed by the caught message,
and errors are returned, not thrown (the handlers are total functions into
`ToolResponse`). -/
theorem handlers_return_text_blocks :
    (∀ (endpoint : String) (headers : JsObj) (response : FetchResponse),
      ∃ t : String,
        (remoteToolResult endpoint headers response).1.content =
          [{ type := "text", text := t }] ∧
        ((∃ m, (makeApiCall endpoint "GET" (some Json.null) headers response).1 =
            Except.error m ∧ t = "Error: " ++ m) ∨
         (∃ v, (makeApiCall endpoint "GET" (some Json.null) headers response).1 =
            Except.ok v ∧ t = renderJson 0 v))) ∧
    (∀ a b : Rat, ∃ t : String,
      (addTool a b).content = [{ type := "text", text := t }]) ∧
    (∀ (op : CalcOp) (a b : Rat), ∃ t : String,
      (calculateTool op a b).content = [{ type := "text", text := t }]) := by
  refine ⟨?_, fun a b => ⟨_, rfl⟩, ?_⟩
  · intro endpoint headers response
    cases hm : (makeApiCall endpoint "GET" (some Json.null) headers response).1 with
    | ok v =>
        exact ⟨renderJson 0 v, by simp [remoteToolResult, hm],
          Or.inr ⟨v, rfl, rfl⟩⟩
    | error m =>
        exact ⟨"Error: " ++ m, by simp [remoteToolResult, hm],
          Or.inl ⟨m, rfl, rfl⟩⟩
  · intro op a b
    cases op with
    | add => exact ⟨_, rfl⟩
    | subtract => exact ⟨_, rfl⟩
    | multiply => exact ⟨_, rfl⟩
    | divide =>
        by_cases hb : b = 0
        · exact ⟨"Error: Cannot divide by zero", by simp [calculateTool, hb]⟩
        · exact ⟨jsNumToString (a / b), by simp [calculateTool, hb]⟩

/-- C4: with valid context headers and a successful upstream response whose
body parses to `v`, the remote-backed tool returns a single text block whose
text is exactly `v` pretty-printed with two-space indentation; the second
conjunct pins the renderer down on a concrete two-field object. -/
theorem success_roundtrip_pretty_printed (endpoint : String) (headers : JsObj)
    (response : FetchResponse) (v : Json)
    (hd : ¬ jsGetStr headers "x-magento-domain" = "")
    (ha : ¬ jsGetStr headers "authorization" = "")
    (hok : response.isOk = true)
    (hjson : response.jsonBody = Except.ok v) :
    (remoteToolResult endpoint headers response).1.content =
      [{ type := "text", text := renderJson 0 v }] ∧
    renderJson 0 (Json.obj (JsonObject.cons "sku" (Json.str "abc")
        (JsonObject.cons "price" (Json.num 10) JsonObject.nil))) =
      "\x7b\n  \"sku\": \"abc\",\n  \"price\": 10\n\x7d" := by
  refine ⟨?_, by decide⟩
  simp [remoteToolResult, makeApiCall, makeApiCallTry, hd, ha, hok, hjson]

/-- C4 witness: concrete success round trip for a one-member object. -/
theorem success_roundtrip_pretty_printed_concrete :
    (remoteToolResult "mcpdata/product/sku/x"
        [("x-magento-domain", "https://shop.example"), ("authorization", "tok")]
        ⟨200, "OK", "",
          Except.ok (Json.obj (JsonObject.cons "sku" (Json.str "abc")
            (JsonObject.cons "price" (Json.num 10) JsonObject.nil)))⟩).1.content =
      [{ type := "text",
         text := renderJson 0 (Json.obj (JsonObject.cons "sku" (Json.str "abc")
           (JsonObject.cons "price" (Json.num 10) JsonObject.nil))) }] ∧
    renderJson 0 (Json.obj (JsonObject.cons "sku" (Json.str "abc")
        (JsonObject.cons "price" (Json.num 10) JsonObject.nil))) =
      "\x7b\n  \"sku\": \"abc\",\n  \"price\": 10\n\x7d" :=
  success_roundtrip_pretty_printed "mcpdata/product/sku/x"
    [("x-magento-domain", "https://shop.example"), ("authorization", "tok")]
    ⟨200, "OK", "",
      Except.ok (Json.obj (JsonObject.cons "sku" (Json.str "abc")
        (JsonObject.cons "price" (Json.num 10) JsonObject.nil)))⟩
    (Json.obj (JsonObject.cons "sku" (Json.str "abc")
      (JsonObject.cons "price" (Json.num 10) JsonObject.nil)))
    (by decide) (by decide) (by decide) rfl

/-- C5: with valid context headers and a non-success upstream status, the
forwarder fails with the rewrapped message embedding status code, status
text and body text; and in general every error thrown inside the `try` body
surfaces with the fixed `API call error: ` prefix and its message intact. -/
theorem http_error_message_shape (endpoint : String) (headers : JsObj)
    (response : FetchResponse)
    (hd : ¬ jsGetStr headers "x-magento-domain" = "")
    (ha : ¬ jsGetStr headers "authorization" = "")
    (hnot : response.isOk = false) :
    (makeApiCall endpoint "GET" (some Json.null) headers response).1 =
      Except.error ("API call error: " ++ ("API call failed: " ++
        toString response.status ++ " " ++ response.statusText ++ " - " ++
        response.bodyText)) ∧
    ∀ (e m : String) (d : Option Json) (h : JsObj) (r : FetchResponse)
      (msg : String),
      (makeApiCallTry e m d h r).1 = Except.error msg →
      (makeApiCall e m d h r).1 = Except.error ("API call error: " ++ msg) := by
  constructor
  · simp [makeApiCall, makeApiCallTry, hd, ha, hnot]
  · intro e m d h r msg hmsg
    simp [makeApiCall, hmsg]

/-- C5 witness: status 404 with body "not found" produces the expected full
error text, which contains both "404" and "not found". -/
theorem http_error_message_shape_concrete :
    (makeApiCall "mcpdata/x" "GET" (some Json.null)
        [("x-magento-domain", "https://shop.example"), ("authorization", "tok")]
        ⟨404, "Not Found", "not found", Except.error "boom"⟩).1 =
      Except.error ("API call error: " ++ ("API call failed: " ++
        toString (404 : Nat) ++ " " ++ "Not Found" ++ " - " ++ "not found")) ∧
    ∀ (e m : String) (d : Option Json) (h : JsObj) (r : FetchResponse)
      (msg : String),
      (makeApiCallTry e m d h r).1 = Except.error msg →
      (makeApiCall e m d h r).1 = Except.error ("API call error: " ++ msg) :=
  http_error_message_shape "mcpdata/x"
    [("x-magento-domain", "https://shop.example"), ("authorization", "tok")]
    ⟨404, "Not Found", "not found", Except.error "boom"⟩
    (by decide) (by decide) rfl

/-- Overwriting the binding of a key `q` in place leaves lookups of any
other key `k` unchanged. -/
theorem find_map_overwrite (o : JsObj) (q v k : String) (h : ¬ q = k) :
    (o.map fun p => if p.1 = q then (q, v) else p).find?
        (fun p => decide (p.1 = k)) =
      o.find? (fun p => decide (p.1 = k)) := by
  induction o with
  | nil => rfl
  | cons p ps ih =>
    simp only [List.map_cons, List.find?_cons]
    by_cases hq : p.1 = q
    · have hpk : ¬ p.1 = k := by rw [hq]; exact h
      rw [if_pos hq]
      simp only [hpk, h, decide_eq_false, Bool.false_eq_true]
      exact ih
    · rw [if_neg hq]
      by_cases hk : p.1 = k
      · simp [hk]
      · simp only [hk, decide_eq_false, Bool.false_eq_true]
        exact ih

/-- Appending a binding of a key `q` leaves lookups of any other key `k`
unchanged. -/
theorem find_append_single_ne (o : JsObj) (q v k : String) (h : ¬ q = k) :
    (o ++ [(q, v)]).find? (fun p => decide (p.1 = k)) =
      o.find? (fun p => decide (p.1 = k)) := by
  induction o with
  | nil => simp [List.find?, h]
  | cons p ps ih =>
    by_cases hk : p.1 = k <;> simp [List.find?_cons, hk, ih]

/-- One spread-assignment step of a key other than `k` does not change the
value of `k`. -/
theorem jsGet_objInsert_ne (o : JsObj) (q v k : String) (h : ¬ q = k) :
    jsGet (objInsert o q v) k = jsGet o k := by
  unfold objInsert jsGet
  split
  · rw [find_map_overwrite o q v k h]
  · rw [find_append_single_ne o q v k h]

/-- Spreading an object none of whose keys is `k` over a base object does
not change the value of `k`. -/
theorem jsGet_objSpread_not_mem (base extra : JsObj) (k : String)
    (h : ∀ p ∈ extra, ¬ p.1 = k) :
    jsGet (objSpread base extra) k = jsGet base k := by
  induction extra generalizing base with
  | nil => rfl
  | cons p ps ih =>
    have hstep : objSpread base (p :: ps) =
        objSpread (objInsert base p.1 p.2) ps := rfl
    rw [hstep, ih (objInsert base p.1 p.2)
      (fun q hq => h q (List.mem_cons_of_mem p hq))]
    exact jsGet_objInsert_ne base p.1 p.2 k (h p (List.mem_cons_self p ps))

/-- The `catch` wrapper changes only the result, never the list of issued
requests. -/
theorem makeApiCall_snd (e m : String) (d : Option Json) (h : JsObj)
    (r : FetchResponse) :
    (makeApiCall e m d h r).2 = (makeApiCallTry e m d h r).2 := rfl

/-- With both context headers present, the single request handed to `fetch`
has the assembled URL, method GET, the computed header object with the
caller headers spread over it, and no body. -/
theorem makeApiCallTry_requests (endpoint : String) (headers : JsObj)
    (response : FetchResponse)
    (hd : ¬ jsGetStr headers "x-magento-domain" = "")
    (ha : ¬ jsGetStr headers "authorization" = "") :
    (makeApiCallTry endpoint "GET" (some Json.null) headers response).2 =
      [⟨jsGetStr headers "x-magento-domain" ++ "/rest/V1/" ++ endpoint, "GET",
        objSpread
          [("Authorization",
            if (jsGetStr headers "authorization").startsWith "Bearer "
            then jsGetStr headers "authorization"
            else "Bearer " ++ jsGetStr headers "authorization"),
           ("Content-Type", "application/json"),
           ("Accept", "application/json")] headers, none⟩] := by
  unfold makeApiCallTry
  simp only [hd, ha, decide_eq_false, Bool.or_self, Bool.false_eq_true, if_false]
  cases hok : response.isOk with
  | false => simp [hok, jsTruthy, Json.truthy]
  | true => cases hj : response.jsonBody <;> simp [hok, hj, jsTruthy, Json.truthy]

/-- C3: when the context headers are present (and, per the collaborator
contract that incoming header names are lower-case, carry no exact-case
`Authorization` key), the request handed to `fetch` carries an
`Authorization` header equal to the credential prefixed with `Bearer ` when
it lacked that prefix, and to the unchanged credential when it already
started with `Bearer `. -/
theorem authorization_bearer_normalized (endpoint : String) (headers : JsObj)
    (response : FetchResponse)
    (hd : ¬ jsGetStr headers "x-magento-domain" = "")
    (ha : ¬ jsGetStr headers "authorization" = "")
    (hk : ∀ p ∈ headers, ¬ p.1 = "Authorization") :
    ∃ req : ApiRequest,
      (makeApiCall endpoint "GET" (some Json.null) headers response).2 = [req] ∧
      jsGet req.headers "Authorization" =
        some (if (jsGetStr headers "authorization").startsWith "Bearer "
              then jsGetStr headers "authorization"
              else "Bearer " ++ jsGetStr headers "authorization") := by
  refine ⟨⟨jsGetStr headers "x-magento-domain" ++ "/rest/V1/" ++ endpoint, "GET",
    objSpread
      [("Authorization",
        if (jsGetStr headers "authorization").startsWith "Bearer "
        then jsGetStr headers "authorization"
        else "Bearer " ++ jsGetStr headers "authorization"),
       ("Content-Type", "application/json"),
       ("Accept", "application/json")] headers, none⟩, ?_, ?_⟩
  · rw [makeApiCall_snd, makeApiCallTry_requests endpoint headers response hd ha]
  · rw [jsGet_objSpread_not_mem _ _ _ hk]
    simp [jsGet, List.find?_cons]

/-- C3 witness: concrete instances with an unprefixed credential "tok" and
an already prefixed credential "Bearer tok". -/
theorem authorization_bearer_normalized_concrete :
    (∃ req : ApiRequest,
      (makeApiCall "mcpdata/x" "GET" (some Json.null)
          [("x-magento-domain", "https://shop.example"), ("authorization", "tok")]
          ⟨200, "OK", "", Except.ok Json.null⟩).2 = [req] ∧
      jsGet req.headers "Authorization" =
        some (if (jsGetStr [("x-magento-domain", "https://shop.example"),
                ("authorization", "tok")] "authorization").startsWith "Bearer "
              then jsGetStr [("x-magento-domain", "https://shop.example"),
                ("authorization", "tok")] "authorization"
              else "Bearer " ++ jsGetStr [("x-magento-domain", "https://shop.example"),
                ("authorization", "tok")] "authorization")) ∧
    (∃ req : ApiRequest,
      (makeApiCall "mcpdata/x" "GET" (some Json.null)
          [("x-magento-domain", "https://shop.example"),
           ("authorization", "Bearer tok")]
          ⟨200, "OK", "", Except.ok Json.null⟩).2 = [req] ∧
      jsGet req.headers "Authorization" =
        some (if (jsGetStr [("x-magento-domain", "https://shop.example"),
                ("authorization", "Bearer tok")] "authorization").startsWith "Bearer "
              then jsGetStr [("x-magento-domain", "https://shop.example"),
                ("authorization", "Bearer tok")] "authorization"
              else "Bearer " ++ jsGetStr [("x-magento-domain", "https://shop.example"),
                ("authorization", "Bearer tok")] "authorization")) :=
  ⟨authorization_bearer_normalized "mcpdata/x"
      [("x-magento-domain", "https://shop.example"), ("authorization", "tok")]
      ⟨200, "OK", "", Except.ok Json.null⟩
      (by decide) (by decide) (by decide),
   authorization_bearer_normalized "mcpdata/x"
      [("x-magento-domain", "https://shop.example"), ("authorization", "Bearer tok")]
      ⟨200, "OK", "", Except.ok Json.null⟩
      (by decide) (by decide) (by decide)⟩
